import Mathlib

/-!
Shallow embedding of the nssh session-orchestration core (Go repository
0x6b/nssh).  Pure Lean translations of the source functions; effectful
steps (HTTP calls, the outbound-IP probe, terminal syscalls) are passed
in as explicit outcome values, mirroring the control flow of the Go code.
-/

namespace Nssh

/-! ## Character and string helpers (models of Go standard library calls) -/

/-- Model of the ASCII part of Go `unicode.IsSpace`, as used by
`strings.TrimSpace` (the bodies considered here are ASCII). -/
def isSpaceChar (c : Char) : Bool :=
  (9 ≤ c.toNat && c.toNat ≤ 13) || c == ' '

/-- Model of Go `strings.TrimSpace` on the character list of the string. -/
def trimSpace (l : List Char) : List Char :=
  ((l.dropWhile isSpaceChar).reverse.dropWhile isSpaceChar).reverse

/-- Splits a character list on every occurrence of `sep`, like Go
`strings.Split` with a one-byte separator. -/
def splitChar (sep : Char) : List Char → List (List Char)
  | [] => [[]]
  | c :: cs =>
    if c == sep then [] :: splitChar sep cs
    else
      match splitChar sep cs with
      | [] => [[c]]
      | g :: gs => (c :: g) :: gs

/-- Decimal value of a digit list (caller checks that all are digits). -/
def digitsVal (l : List Char) : Nat :=
  l.foldl (fun a c => a * 10 + (c.toNat - 48)) 0

/-- Model of one dotted-decimal field as accepted by Go `net.ParseIP`:
non-empty, digits only, no leading zero, value at most 255. -/
def parseOctet (l : List Char) : Option Nat :=
  if l.isEmpty then none
  else if !(l.all Char.isDigit) then none
  else if 1 < l.length && l.head? == some '0' then none
  else if digitsVal l ≤ 255 then some (digitsVal l) else none

/-- Model of Go `net.ParseIP` restricted to IPv4 dotted-quad literals,
returning the 32-bit address value; strings of any other shape
(including the IPv6 textual forms, which no input considered here uses)
return `none`, as `net.ParseIP` returns `nil` on them. -/
def ParseIP (s : String) : Option Nat :=
  match splitChar '.' s.data with
  | [a, b, c, d] =>
    match parseOctet a, parseOctet b, parseOctet c, parseOctet d with
    | some a, some b, some c, some d => some (((a * 256 + b) * 256 + c) * 256 + d)
    | _, _, _, _ => none
  | _ => none

/-- An IPv4 network, as returned by Go `net.ParseCIDR`: the masked base
address and the mask length. -/
structure IPNet where
  network : Nat
  maskLen : Nat
deriving DecidableEq

/-- Model of Go `net.ParseCIDR` restricted to IPv4 `a.b.c.d/n` strings. -/
def ParseCIDR (s : String) : Option IPNet :=
  match splitChar '/' s.data with
  | [ipStr, lenStr] =>
    match ParseIP (String.mk ipStr), parseOctet lenStr with
    | some ip, some n =>
      if n ≤ 32 then some ⟨(ip >>> (32 - n)) <<< (32 - n), n⟩ else none
    | _, _ => none
  | _ => none

/-- Model of Go `net.IPNet.Contains` for IPv4. -/
def IPNet.containsIP (net : IPNet) (ip : Nat) : Bool :=
  (ip >>> (32 - net.maskLen)) == (net.network >>> (32 - net.maskLen))

/-! ## Data model (src/models/port_mapping.go, src/models/sim.go) -/

/-- Destination of a port mapping (`Destination` field of `PortMapping`). -/
structure Destination where
  id : String
  port : Int
deriving DecidableEq

/-- Permitted sources of a port mapping (`Source` field of `PortMapping`). -/
structure Source where
  ipRanges : List String
deriving DecidableEq

/-- A SORACOM Napter port mapping (src/models/port_mapping.go). -/
structure PortMapping where
  duration : Int
  endpoint : String
  hostname : String
  ipAddress : String
  port : Int
  tlsRequired : Bool
  destination : Destination
  source : Source
deriving DecidableEq

/-- One subscriber entry in a SIM profile (src/models/sim.go). -/
structure SubscriberEntry where
  imsi : String
  subscription : String
deriving DecidableEq

/-- One profile of a SIM (src/models/sim.go); `subscribers` models the Go
map as an association list. -/
structure Profile where
  primaryImsi : String
  subscribers : List (String × SubscriberEntry)
deriving DecidableEq

/-- Session status of a SIM (src/models/sim.go). -/
structure SessionStatus where
  online : Bool
  imsi : String
deriving DecidableEq

/-- A SORACOM IoT SIM (src/models/sim.go); `profiles` models the Go map
as an association list. -/
structure SIM where
  activeProfileID : String
  simID : String
  speedClass : String
  profiles : List (String × Profile)
  sessionStatus : SessionStatus
  tagsName : String
deriving DecidableEq

/-- Zero value of `Profile`, produced by a Go map read at a missing key. -/
def Profile.zero : Profile := ⟨"", []⟩

/-- Zero value of `SubscriberEntry`, produced by a Go map read at a
missing key. -/
def SubscriberEntry.zero : SubscriberEntry := ⟨"", ""⟩

/-- Model of a Go map read `m[k]`: the stored value when `k` is a key,
the zero value otherwise. -/
def mapRead (m : List (String × α)) (k : String) (zero : α) : α :=
  match m.lookup k with
  | some v => v
  | none => zero

/-- Translation of `SIM.getActiveSubscription` (src/models/sim.go):
`s.Profiles[s.ActiveProfileID].Subscribers[primaryImsi].Subscription`
with Go zero-value map reads. -/
def SIM.getActiveSubscription (s : SIM) : String :=
  let activeProfile := mapRead s.profiles s.activeProfileID Profile.zero
  let primaryImsi := activeProfile.primaryImsi
  (mapRead activeProfile.subscribers primaryImsi SubscriberEntry.zero).subscription

/-- Display name part of the SIM renderings: the name tag, or
"Unknown" when the tag is empty (src/models/sim.go). -/
def SIM.displayName (s : SIM) : String :=
  if s.tagsName = "" then "Unknown" else s.tagsName

/-- Translation of `SIM.String` (src/models/sim.go):
`fmt.Sprintf("%v (%v / %v / %v)", name, SimID, getActiveSubscription, SpeedClass)`. -/
def SIM.render (s : SIM) : String :=
  s.displayName ++ " (" ++ s.simID ++ " / " ++ s.getActiveSubscription ++ " / " ++ s.speedClass ++ ")"

/-- Translation of `SIM.Description` (src/models/sim.go):
`fmt.Sprintf("%s (%s)", getActiveSubscription, SpeedClass)`. -/
def SIM.description (s : SIM) : String :=
  s.getActiveSubscription ++ " (" ++ s.speedClass ++ ")"

/-- Translation of `SIM.FilterValue` (src/models/sim.go):
`fmt.Sprintf("%s%s%s%s", SimID, getActiveSubscription, Tags.Name, SpeedClass)`. -/
def SIM.filterValue (s : SIM) : String :=
  s.simID ++ s.getActiveSubscription ++ s.tagsName ++ s.speedClass

/-! ## Outbound-IP Prober (src/checkip_client.go, `GetIP`) -/

/-- Outcome of the single HTTP GET issued by `GetIP`: a transport
failure from `client.Do`, or a response with a status code and a body
read outcome (`ioutil.ReadAll` may itself fail). -/
inductive HTTPOutcome where
  | transportError (msg : String)
  | response (statusCode : Nat) (bodyResult : Except String String)

/-- Translation of `GetIP` (src/checkip_client.go) as a function of the
HTTP outcome.  A transport failure and a status of 400 or above return
an error; otherwise the body is read (a read failure returns an error)
and the final line is `return net.ParseIP(strings.TrimSpace(string(ip))), nil`:
the parse result is returned together with a nil error, whether or not
the parse produced a usable address. -/
def GetIP (o : HTTPOutcome) : Except String (Option Nat) :=
  match o with
  | .transportError m => .error m
  | .response statusCode bodyResult =>
    if 400 ≤ statusCode then
      .error ("status " ++ toString statusCode ++ ": GET https://checkip.amazonaws.com/")
    else
      match bodyResult with
      | .error e => .error ("failed to read response from https://checkip.amazonaws.com: " ++ e)
      | .ok body => .ok (ParseIP (String.mk (trimSpace body.data)))

/-- True when an `Except` value is an error. -/
def isErr : Except ε α → Bool
  | .error _ => true
  | .ok _ => false

/-! ## Mapping Broker (src/unnamed/part_004, `FindAvailablePortMappingsForSIM`) -/

section Broker

variable {IP Net : Type}

/-- The available-mappings list computed by `FindAvailablePortMappingsForSIM`
once the fetch succeeded: filter the fetched mappings to the requested
destination port; when candidates exist, probe the outbound IP; on probe
error the list stays empty; on probe success append a candidate once per
permitted CIDR string that parses and contains the probed IP, in the
mapping-then-CIDR nested loop order of the source.  The CIDR parse and
the membership test (`net.ParseCIDR`, `IPNet.Contains`) are the
parameters `parseCIDR` and `containsIP`. -/
def availablePortMappingsList (parseCIDR : String → Option Net)
    (containsIP : Net → IP → Bool) (probeResult : Except String IP)
    (portMappings : List PortMapping) (port : Int) : List PortMapping :=
  let currentPortMappings := portMappings.filter (fun pm => pm.destination.port == port)
  if 0 < currentPortMappings.length then
    match probeResult with
    | .error _ => []
    | .ok ip =>
      currentPortMappings.flatMap (fun pm =>
        pm.source.ipRanges.filterMap (fun r =>
          match parseCIDR r with
          | none => none
          | some ipNet => if containsIP ipNet ip then some pm else none))
  else []

/-- Translation of `FindAvailablePortMappingsForSIM` (src/unnamed/part_004):
a fetch error is returned as the error; otherwise the available list is
returned with a nil error (in particular a probe error is swallowed). -/
def FindAvailablePortMappingsForSIM (parseCIDR : String → Option Net)
    (containsIP : Net → IP → Bool)
    (fetchResult : Except String (List PortMapping))
    (probeResult : Except String IP) (port : Int) :
    Except String (List PortMapping) :=
  match fetchResult with
  | .error e => .error e
  | .ok portMappings =>
    .ok (availablePortMappingsList parseCIDR containsIP probeResult portMappings port)

/-- Whether a candidate mapping has some permitted CIDR string that
parses and contains the probed IP (the eligibility condition of the
source's inner loop). -/
def isEligible (parseCIDR : String → Option Net) (containsIP : Net → IP → Bool)
    (ip : IP) (pm : PortMapping) : Bool :=
  pm.source.ipRanges.any (fun r =>
    match parseCIDR r with
    | none => false
    | some ipNet => containsIP ipNet ip)

/-- Modelled from the spec: the first eligible candidate in the original
candidate iteration order (spec section 4.3 step 4), for comparison with
the selection the code makes. -/
def firstEligibleSpec (parseCIDR : String → Option Net)
    (containsIP : Net → IP → Bool) (ip : IP)
    (candidates : List PortMapping) : Option PortMapping :=
  candidates.find? (isEligible parseCIDR containsIP ip)

end Broker

/-- Translation of the search-or-create step of the connect flow
(src/cmd/connect.go lines 42-53): on a find error or an empty available
list, the result of creation is used; otherwise the first element of the
available list is selected. -/
def connectFlowPortMapping (findResult : Except String (List PortMapping))
    (createResult : Except String PortMapping) : Except String PortMapping :=
  match findResult with
  | .error _ => createResult
  | .ok available =>
    match available with
    | [] => createResult
    | pm :: _ => .ok pm

/-! ## Address Resolver (src/cmd/connect.go, `parseArg`) -/

/-- Splits a character list at the first occurrence of `sep`: the part
before it, and `some` rest when `sep` occurs (the pair models Go
`strings.Contains` plus `strings.SplitN(arg, sep, 2)`). -/
def splitFirst (sep : Char) : List Char → List Char × Option (List Char)
  | [] => ([], none)
  | c :: cs =>
    if c == sep then ([], some cs)
    else
      let r := splitFirst sep cs
      (c :: r.1, r.2)

/-- Translation of `parseArg` (src/cmd/connect.go): when the argument
contains a `@`, split on the first one; a non-empty part before it is
the login, otherwise the login is the default "pi"; without a `@` the
whole argument is the name and the login is "pi". -/
def parseArg (arg : String) : String × String :=
  match splitFirst '@' arg.data with
  | (_, none) => ("pi", arg)
  | (before, some after) =>
    (if before.isEmpty then "pi" else String.mk before, String.mk after)

/-! ## Session Bridge (src/client.go lines 247-341, `Connect`) -/

/-- Terminal-mode events recorded by the session model: entering raw
mode (`terminal.MakeRaw`) and restoring the captured prior mode
(`terminal.Restore`, run from the deferred closure). -/
inductive TermEvent where
  | makeRaw
  | restore
deriving DecidableEq

/-- Outcomes of the effectful steps of `Connect` (src/client.go), in
source order: `newSSHClientConfig`, `ssh.Dial`, `client.NewSession`,
`terminal.MakeRaw`, `terminal.GetSize` (returning columns and rows),
`session.RequestPty`, the three pipe setups, `session.Shell`, and
`session.Wait`. -/
structure ConnectSteps where
  sshConfig : Except String Unit
  dial : Except String Unit
  newSession : Except String Unit
  makeRaw : Except String Unit
  getSize : Except String (Int × Int)
  requestPty : Except String Unit
  stdinPipe : Except String Unit
  stdoutPipe : Except String Unit
  stderrPipe : Except String Unit
  shell : Except String Unit
  wait : Except String Unit

/-- What a run of the session model produces: the value `Connect`
returns, the terminal-mode events in order, and the dimensions (rows,
columns) passed to `session.RequestPty` when that call was reached. -/
structure SessionResult where
  result : Except String Unit
  termEvents : List TermEvent
  ptyRequest : Option (Int × Int)

/-- Translation of the part of `Connect` (src/client.go lines 283-340)
that runs after raw mode was entered: on `terminal.GetSize` failure the
dimensions fall back to width 80 and height 24; `session.RequestPty`
receives (height, width); pipe-setup errors return wrapped errors; a
`session.Shell` error is only printed (source lines 317-320) and the
function still proceeds to `session.Wait`, whose outcome is returned. -/
def connectAfterRaw (st : ConnectSteps) : Except String Unit × Option (Int × Int) :=
  let wh : Int × Int :=
    match st.getSize with
    | .ok wh => wh
    | .error _ => (80, 24)
  let hw : Int × Int := (wh.2, wh.1)
  match st.requestPty with
  | .error e => (.error e, some hw)
  | .ok _ =>
    match st.stdinPipe with
    | .error e => (.error ("failed to setup stdin for session: " ++ e), some hw)
    | .ok _ =>
      match st.stdoutPipe with
      | .error e => (.error ("failed to setup stdout for session: " ++ e), some hw)
      | .ok _ =>
        match st.stderrPipe with
        | .error e => (.error ("failed to setup stderr for session: " ++ e), some hw)
        | .ok _ => (st.wait, some hw)

/-- Translation of `Connect` (src/client.go lines 247-341): the four
steps before raw mode return their error directly; once
`terminal.MakeRaw` succeeds, the deferred `terminal.Restore` closure is
registered, so every exit path of the remaining body is bracketed by the
raw-mode entry event and exactly one restore event. -/
def Connect (st : ConnectSteps) : SessionResult :=
  match st.sshConfig with
  | .error e => ⟨.error e, [], none⟩
  | .ok _ =>
    match st.dial with
    | .error e => ⟨.error e, [], none⟩
    | .ok _ =>
      match st.newSession with
      | .error e => ⟨.error e, [], none⟩
      | .ok _ =>
        match st.makeRaw with
        | .error e => ⟨.error e, [], none⟩
        | .ok _ =>
          let r := connectAfterRaw st
          ⟨r.1, [TermEvent.makeRaw, TermEvent.restore], r.2⟩

/-! ## Pagination (src/unnamed/part_004 lines 747-783, `FindOnlineSIMs`) -/

/-- One decoded directory page: the SIMs of the page and the value of
the `X-Soracom-Next-Key` response header (the empty string models an
absent header, which `res.Header.Get` returns as `""`). -/
structure Page where
  sims : List SIM
  nextKey : String
deriving DecidableEq

/-- Translation of the fetch loop of `FindOnlineSIMs`: each iteration
consumes the next HTTP-and-decode outcome; an error outcome is returned
as the error; otherwise the page results are accumulated and, while the
response carries a non-empty next key, that key becomes the
`last_evaluated_key` of the following request.  The second component of
the result records, per request in order, the key the request carried
(`""` for the first request, which has no `last_evaluated_key`
parameter).  An empty outcome list models a transport failure on the
next request. -/
def findOnlineSIMsFrom (lastEvaluatedKey : String) :
    List (Except String Page) → Except String (List SIM × List String)
  | [] => .error "transport failure"
  | r :: rest =>
    match r with
    | .error e => .error e
    | .ok page =>
      if page.nextKey != "" then
        match findOnlineSIMsFrom page.nextKey rest with
        | .error e => .error e
        | .ok (sims, keys) => .ok (page.sims ++ sims, lastEvaluatedKey :: keys)
      else .ok (page.sims, [lastEvaluatedKey])

/-- Translation of `FindOnlineSIMs` (src/unnamed/part_004 lines
747-783): the loop starts with an empty `lastEvaluatedKey`. -/
def FindOnlineSIMs (responses : List (Except String Page)) :
    Except String (List SIM × List String) :=
  findOnlineSIMsFrom "" responses

/-! ## Connect command resolution (src/cmd/connect.go lines 18-37) -/

/-- Outcome of the resolution phase of the connect command: a fatal
exit with status 1 after the listed lines were printed, or proceeding
into the port-mapping pipeline with the single resolved SIM. -/
inductive CmdOutcome where
  | exitFailure (printed : List String)
  | proceed (sim : SIM) (printed : List String)

/-- Progress line printed before the search (src/cmd/connect.go line 21). -/
def searchLine (name : String) : String :=
  "nssh: search subscribers named \"" ++ name ++ "\""

/-- Diagnostic printed when the search failed or found nothing
(src/cmd/connect.go line 24). -/
def notFoundLine (name : String) : String :=
  "nssh: → failed to find online subscribers named \"" ++ name ++ "\""

/-- Diagnostic printed when more than one online SIM matched
(src/cmd/connect.go line 29). -/
def multipleLine (name : String) : String :=
  "nssh: → cannot create port mapping as there are multiple subscribers named \"" ++ name ++ "\""

/-- Per-match line printed in the ambiguous case (src/cmd/connect.go
line 31). -/
def matchLine (s : SIM) : String :=
  "nssh: - " ++ s.render

/-- Translation of the resolution phase of the connect command
(src/cmd/connect.go lines 18-37): a search error or an empty online
list exits with a diagnostic; more than one match exits after printing
every match; otherwise the flow proceeds with the first (only) match. -/
def connectCmdResolve (name : String) (findResult : Except String (List SIM)) : CmdOutcome :=
  match findResult with
  | .error _ => .exitFailure [searchLine name, notFoundLine name]
  | .ok onlineSIMs =>
    if onlineSIMs.length = 0 then
      .exitFailure [searchLine name, notFoundLine name]
    else if 1 < onlineSIMs.length then
      .exitFailure ([searchLine name, multipleLine name] ++ onlineSIMs.map matchLine)
    else
      match onlineSIMs with
      | s :: _ => .proceed s [searchLine name, "nssh: → found SIM " ++ s.render]
      | [] => .exitFailure [searchLine name, notFoundLine name]

/-! ## Helper lemmas -/

lemma head?_flatMap {α β : Type} (l : List α) (f : α → List β) :
    (l.flatMap f).head? = l.findSome? (fun a => (f a).head?) := by
  induction l with
  | nil => rfl
  | cons a l ih =>
    rw [List.flatMap_cons, List.findSome?_cons]
    cases h : f a with
    | nil => simpa [h] using ih
    | cons b bs => simp [h]

lemma findSome?_guard {α : Type} (p : α → Bool) (l : List α) :
    l.findSome? (fun a => if p a then some a else none) = l.find? p := by
  induction l with
  | nil => rfl
  | cons a l ih =>
    by_cases h : p a <;> simp [List.findSome?_cons, List.find?_cons, h, ih]

lemma splitFirst_not_mem (sep : Char) (l : List Char) (h : sep ∉ l) :
    splitFirst sep l = (l, none) := by
  induction l with
  | nil => rfl
  | cons c cs ih =>
    rw [List.mem_cons, not_or] at h
    have hc : c ≠ sep := fun hh => h.1 hh.symm
    simp [splitFirst, hc, ih h.2]

lemma splitFirst_first_sep (sep : Char) (pre post : List Char) (h : sep ∉ pre) :
    splitFirst sep (pre ++ sep :: post) = (pre, some post) := by
  induction pre with
  | nil => simp [splitFirst]
  | cons c cs ih =>
    rw [List.mem_cons, not_or] at h
    have hc : c ≠ sep := fun hh => h.1 hh.symm
    simp [splitFirst, hc, ih h.2]

variable {IP Net : Type}

lemma inner_head (parseCIDR : String → Option Net) (containsIP : Net → IP → Bool)
    (ip : IP) (pm : PortMapping) (ranges : List String) :
    (ranges.filterMap (fun r =>
      match parseCIDR r with
      | none => none
      | some ipNet => if containsIP ipNet ip then some pm else none)).head?
    = if ranges.any (fun r =>
        match parseCIDR r with
        | none => false
        | some ipNet => containsIP ipNet ip) then some pm else none := by
  induction ranges with
  | nil => rfl
  | cons r rs ih =>
    rw [List.filterMap_cons, List.any_cons]
    cases hp : parseCIDR r with
    | none => simpa [hp] using ih
    | some n =>
      by_cases hc : containsIP n ip
      · simp [hp, hc]
      · simpa [hp, hc] using ih

/-! ## Claim theorems -/

/-- Claim C1: for a fixed fetched mapping list, a fixed requested
destination port, fixed CIDR parse results and a fixed successfully
probed caller IP, the broker result is the deterministic available list,
whose head is exactly the first eligible candidate in the original
candidate iteration order (mapping-then-CIDR nested order), and the
connect flow selects precisely that first eligible candidate (falling
through to creation only when none is eligible) — never a best or a
most specific match. -/
theorem claim_C1 (parseCIDR : String → Option Net) (containsIP : Net → IP → Bool)
    (ip : IP) (pms : List PortMapping) (port : Int) (create : Except String PortMapping) :
    FindAvailablePortMappingsForSIM parseCIDR containsIP (.ok pms) (.ok ip) port
      = .ok (availablePortMappingsList parseCIDR containsIP (.ok ip) pms port)
    ∧ (availablePortMappingsList parseCIDR containsIP (.ok ip) pms port).head?
      = firstEligibleSpec parseCIDR containsIP ip
          (pms.filter (fun pm => pm.destination.port == port))
    ∧ connectFlowPortMapping
        (.ok (availablePortMappingsList parseCIDR containsIP (.ok ip) pms port)) create
      = (match firstEligibleSpec parseCIDR containsIP ip
            (pms.filter (fun pm => pm.destination.port == port)) with
         | some pm => .ok pm
         | none => create) := by
  have hhead : (availablePortMappingsList parseCIDR containsIP (.ok ip) pms port).head?
      = firstEligibleSpec parseCIDR containsIP ip
          (pms.filter (fun pm => pm.destination.port == port)) := by
    unfold availablePortMappingsList firstEligibleSpec
    cases h : pms.filter (fun pm => pm.destination.port == port) with
    | nil => simp
    | cons q qs =>
      rw [if_pos (by simp)]
      rw [head?_flatMap]
      have hfun : (fun pm : PortMapping =>
          (pm.source.ipRanges.filterMap (fun r =>
            match parseCIDR r with
            | none => none
            | some ipNet => if containsIP ipNet ip then some pm else none)).head?)
          = fun pm => if isEligible parseCIDR containsIP ip pm then some pm else none := by
        funext pm
        exact inner_head parseCIDR containsIP ip pm pm.source.ipRanges
      rw [hfun, findSome?_guard]
  refine ⟨rfl, hhead, ?_⟩
  rw [← hhead]
  cases hav : availablePortMappingsList parseCIDR containsIP (.ok ip) pms port with
  | nil => rfl
  | cons pm rest => rfl

/-- Claim C2: when the outbound-IP probe fails, the broker returns an
empty available list with a nil error (it never fails the command on a
probe error), and the connect flow therefore falls through to creation
and returns the created mapping. -/
theorem claim_C2 (parseCIDR : String → Option Net) (containsIP : Net → IP → Bool)
    (pms : List PortMapping) (port : Int) (e : String) (created : PortMapping) :
    FindAvailablePortMappingsForSIM parseCIDR containsIP (.ok pms) (.error e) port = .ok []
    ∧ connectFlowPortMapping
        (FindAvailablePortMappingsForSIM parseCIDR containsIP (.ok pms) (.error e) port)
        (.ok created) = .ok created := by
  have h : availablePortMappingsList parseCIDR containsIP (Except.error e) pms port = [] := by
    unfold availablePortMappingsList
    simp
  constructor
  · show Except.ok (availablePortMappingsList parseCIDR containsIP (Except.error e) pms port)
        = Except.ok []
    rw [h]
  · show connectFlowPortMapping
        (Except.ok (availablePortMappingsList parseCIDR containsIP (Except.error e) pms port))
        (Except.ok created) = Except.ok created
    rw [h]
    rfl

/-- Claim C3 as stated is false: the amended statement.  A transport
failure, a status of 400 or above, and a body-read failure each produce
a non-nil error from `GetIP`; but a body that does not parse as an IP
literal after trimming is returned as a success carrying no usable IP
(nil error, nil IP). -/
theorem claim_C3_amended :
    (∀ m, GetIP (.transportError m) = .error m)
    ∧ (∀ st b, 400 ≤ st → isErr (GetIP (.response st b)) = true)
    ∧ (∀ st e, st < 400 → isErr (GetIP (.response st (.error e))) = true)
    ∧ (∀ st b, st < 400 → ParseIP (String.mk (trimSpace b.data)) = none →
        GetIP (.response st (.ok b)) = .ok none) := by
  refine ⟨fun m => rfl, ?_, ?_, ?_⟩
  · intro st b h
    simp only [GetIP]
    rw [if_pos h]
    rfl
  · intro st e h
    simp only [GetIP]
    rw [if_neg (by omega)]
    rfl
  · intro st b h hp
    simp only [GetIP]
    rw [if_neg (by omega)]
    simp [hp]

/-- Claim C3 counterexample: a 200 response whose body does not parse
as an IP address makes `GetIP` return a nil error together with no
usable IP — the caller receives success, not the error the claim
asserts; and a non-2xx status below 400 (here 300) is also not an
error. -/
theorem claim_C3_counterexample :
    GetIP (.response 200 (.ok "not-an-ip")) = .ok none
    ∧ isErr (GetIP (.response 200 (.ok "not-an-ip"))) = false
    ∧ GetIP (.response 300 (.ok "1.2.3.4")) = .ok (some 16909060) :=
  ⟨rfl, rfl, rfl⟩

/-- Claim C3 witness: the amended theorem applied at a 404 response and
at a 200 response with an unparsable body. -/
theorem claim_C3_witness :
    isErr (GetIP (.response 404 (.ok "x"))) = true
    ∧ GetIP (.response 200 (.ok "nope")) = .ok none :=
  ⟨claim_C3_amended.2.1 404 (.ok "x") (by decide),
   claim_C3_amended.2.2.2 200 "nope" (by decide) (by decide)⟩

/-- Session runs produce either no terminal-mode events (an error
before raw mode was entered) or exactly the raw-entry event followed by
the deferred restore. -/
lemma connect_termEvents (st : ConnectSteps) :
    (Connect st).termEvents = []
    ∨ (Connect st).termEvents = [TermEvent.makeRaw, TermEvent.restore] := by
  unfold Connect
  rcases st.sshConfig with e | u
  · left; rfl
  rcases st.dial with e | u
  · left; rfl
  rcases st.newSession with e | u
  · left; rfl
  rcases st.makeRaw with e | u
  · left; rfl
  right; rfl

/-- Claim C4: terminal-mode capture and restore form a scoped
acquisition with unconditional release — on every exit path of the
session bridge the number of restores equals the number of raw-mode
entries, raw mode is entered at most once, and whenever raw mode was
entered the prior mode is restored exactly once (whatever the outcomes
of the PTY request, the pipe setups, the remote-shell start and the
final wait). -/
theorem claim_C4 (st : ConnectSteps) :
    ((Connect st).termEvents.count TermEvent.restore
      = (Connect st).termEvents.count TermEvent.makeRaw)
    ∧ (Connect st).termEvents.count TermEvent.makeRaw ≤ 1
    ∧ (TermEvent.makeRaw ∈ (Connect st).termEvents →
        (Connect st).termEvents.count TermEvent.restore = 1) := by
  rcases connect_termEvents st with h | h <;> rw [h] <;>
    exact ⟨by decide, by decide, by decide⟩

/-- Claim C4 witness: in a fully successful session run, raw mode was
entered and the prior terminal mode is restored exactly once. -/
theorem claim_C4_witness :
    TermEvent.makeRaw ∈ (Connect ⟨.ok (), .ok (), .ok (), .ok (), .ok (80, 24), .ok (),
      .ok (), .ok (), .ok (), .ok (), .ok ()⟩).termEvents
    ∧ (Connect ⟨.ok (), .ok (), .ok (), .ok (), .ok (80, 24), .ok (),
        .ok (), .ok (), .ok (), .ok (), .ok ()⟩).termEvents.count TermEvent.restore = 1 :=
  ⟨by decide, (claim_C4 _).2.2 (by decide)⟩

/-- Claim C5: the address resolver is total and splits on the first
`@`: with a `@` present, a non-empty part before it becomes the login
and the rest the query, an empty part before it falls back to the
default login "pi"; without a `@` the whole input is the query and the
login is "pi"; the empty string also succeeds. -/
theorem claim_C5 :
    (∀ pre post : List Char, '@' ∉ pre →
      parseArg (String.mk (pre ++ '@' :: post))
        = ((if pre = [] then "pi" else String.mk pre), String.mk post))
    ∧ (∀ arg : String, '@' ∉ arg.data → parseArg arg = ("pi", arg))
    ∧ parseArg "" = ("pi", "") := by
  refine ⟨?_, ?_, rfl⟩
  · intro pre post h
    unfold parseArg
    rw [show (String.mk (pre ++ '@' :: post)).data = pre ++ '@' :: post from rfl]
    rw [splitFirst_first_sep _ _ _ h]
    simp [List.isEmpty_iff]
  · intro arg h
    unfold parseArg
    rw [splitFirst_not_mem _ _ h]

/-- Claim C5 witness: the resolver applied to the characters of
"bob@device-7". -/
theorem claim_C5_witness :
    parseArg (String.mk ("bob".data ++ '@' :: "device-7".data))
      = ((if "bob".data = ([] : List Char) then "pi" else String.mk "bob".data),
         String.mk "device-7".data) :=
  claim_C5.1 "bob".data "device-7".data (by decide)

/-- Claim C6: an unparsable CIDR entry is inert — a candidate on the
requested port that carries one invalid CIDR string and one valid CIDR
string containing the probed caller IP is still selected as eligible,
and the broker returns normally. -/
theorem claim_C6 (parseCIDR : String → Option Net) (containsIP : Net → IP → Bool)
    (ip : IP) (pms : List PortMapping) (port : Int) (pm : PortMapping)
    (rBad rGood : String) (ipNet : Net)
    (hmem : pm ∈ pms) (hport : pm.destination.port = port)
    (hranges : pm.source.ipRanges = [rBad, rGood])
    (hbad : parseCIDR rBad = none) (hgood : parseCIDR rGood = some ipNet)
    (hcontains : containsIP ipNet ip = true) :
    pm ∈ availablePortMappingsList parseCIDR containsIP (.ok ip) pms port
    ∧ FindAvailablePortMappingsForSIM parseCIDR containsIP (.ok pms) (.ok ip) port
      = .ok (availablePortMappingsList parseCIDR containsIP (.ok ip) pms port) := by
  refine ⟨?_, rfl⟩
  unfold availablePortMappingsList
  have hcur : pm ∈ pms.filter (fun q => q.destination.port == port) := by
    simp [List.mem_filter, hmem, hport]
  rw [if_pos (List.length_pos.mpr (List.ne_nil_of_mem hcur))]
  refine List.mem_flatMap.mpr ⟨pm, hcur, ?_⟩
  rw [hranges]
  simp [List.filterMap_cons, hbad, hgood, hcontains]

/-- Claim C6 witness: the concrete IPv4 CIDR model applied to a mapping
with ranges ["bad", "10.0.0.0/8"] and the probed address 10.1.2.3. -/
theorem claim_C6_witness :
    (⟨3600, "ep.napter", "host", "5.6.7.8", 10, false, ⟨"sim1", 22⟩,
      ⟨["bad", "10.0.0.0/8"]⟩⟩ : PortMapping)
      ∈ availablePortMappingsList ParseCIDR IPNet.containsIP (.ok 167838211)
          [⟨3600, "ep.napter", "host", "5.6.7.8", 10, false, ⟨"sim1", 22⟩,
            ⟨["bad", "10.0.0.0/8"]⟩⟩] 22
    ∧ FindAvailablePortMappingsForSIM ParseCIDR IPNet.containsIP
        (.ok [⟨3600, "ep.napter", "host", "5.6.7.8", 10, false, ⟨"sim1", 22⟩,
          ⟨["bad", "10.0.0.0/8"]⟩⟩])
        (.ok 167838211) 22
      = .ok (availablePortMappingsList ParseCIDR IPNet.containsIP (.ok 167838211)
          [⟨3600, "ep.napter", "host", "5.6.7.8", 10, false, ⟨"sim1", 22⟩,
            ⟨["bad", "10.0.0.0/8"]⟩⟩] 22) :=
  claim_C6 ParseCIDR IPNet.containsIP 167838211 _ 22 _ "bad" "10.0.0.0/8" ⟨167772160, 8⟩
    (by decide) rfl rfl (by decide) (by decide) (by decide)

/-- The pagination loop, started at any key, over a run of successful
pages of which all but the last carry a continuation key and the last
carries none, returns the concatenation of all page results in fetch
order and passes each returned key into the following request. -/
lemma findOnlineSIMsFrom_spec (key : String) (ps : List Page) (plast : Page)
    (hne : ∀ p ∈ ps, p.nextKey ≠ "") (hlast : plast.nextKey = "") :
    findOnlineSIMsFrom key ((ps ++ [plast]).map Except.ok)
      = .ok ((ps ++ [plast]).flatMap Page.sims, key :: ps.map Page.nextKey) := by
  induction ps generalizing key with
  | nil => simp [findOnlineSIMsFrom, hlast]
  | cons p ps ih =>
    have hp : p.nextKey ≠ "" := hne p (by simp)
    simp only [List.cons_append, List.map_cons, findOnlineSIMsFrom, List.append_eq]
    rw [if_pos (by simpa using hp)]
    rw [ih p.nextKey (fun q hq => hne q (by simp [hq]))]
    simp

/-- Claim C7: the list-all-online operation keeps fetching while the
response carries a continuation token, passing each token into the next
request, returns the concatenation of all pages in fetch order, and
treats a response without a continuation token as the final page,
terminating without error. -/
theorem claim_C7 (ps : List Page) (plast : Page)
    (hne : ∀ p ∈ ps, p.nextKey ≠ "") (hlast : plast.nextKey = "") :
    FindOnlineSIMs ((ps ++ [plast]).map Except.ok)
      = .ok ((ps ++ [plast]).flatMap Page.sims, "" :: ps.map Page.nextKey) :=
  findOnlineSIMsFrom_spec "" ps plast hne hlast

/-- Claim C7 witness: two pages, the first carrying continuation key
"k1" and the second carrying none. -/
theorem claim_C7_witness :
    FindOnlineSIMs ((([⟨[SIM.mk "p1" "sim1" "s1.fast" [] ⟨true, "i1"⟩ "dev1"], "k1"⟩]
        ++ [⟨[SIM.mk "p2" "sim2" "s1.fast" [] ⟨true, "i2"⟩ "dev2"], ""⟩] : List Page)).map Except.ok)
      = .ok ((([⟨[SIM.mk "p1" "sim1" "s1.fast" [] ⟨true, "i1"⟩ "dev1"], "k1"⟩]
            ++ [⟨[SIM.mk "p2" "sim2" "s1.fast" [] ⟨true, "i2"⟩ "dev2"], ""⟩] : List Page)).flatMap Page.sims,
          "" :: ([⟨[SIM.mk "p1" "sim1" "s1.fast" [] ⟨true, "i1"⟩ "dev1"], "k1"⟩] : List Page).map Page.nextKey) :=
  claim_C7 _ _ (by decide) rfl

/-- Claim C8: a search error or an empty online match set exits with a
diagnostic; more than one online match exits after printing every
matching device; the pipeline proceeds exactly when the match is a
singleton. -/
theorem claim_C8 (name : String) (e : String) (sims : List SIM) :
    connectCmdResolve name (.error e) = .exitFailure [searchLine name, notFoundLine name]
    ∧ (sims = [] → connectCmdResolve name (.ok sims)
        = .exitFailure [searchLine name, notFoundLine name])
    ∧ (1 < sims.length → connectCmdResolve name (.ok sims)
        = .exitFailure ([searchLine name, multipleLine name] ++ sims.map matchLine))
    ∧ (∀ s, sims = [s] → connectCmdResolve name (.ok sims)
        = .proceed s [searchLine name, "nssh: → found SIM " ++ s.render]) := by
  refine ⟨rfl, ?_, ?_, ?_⟩
  · rintro rfl; rfl
  · intro h
    simp only [connectCmdResolve]
    rw [if_neg (by omega), if_pos h]
  · rintro s rfl; rfl

/-- Claim C8 witness: two online matches make the command exit after
printing both. -/
theorem claim_C8_witness :
    connectCmdResolve "dev" (.ok [SIM.mk "p1" "sim1" "s1.fast" [] ⟨true, "i1"⟩ "a",
        SIM.mk "p2" "sim2" "s1.fast" [] ⟨true, "i2"⟩ "b"])
      = .exitFailure ([searchLine "dev", multipleLine "dev"]
          ++ [SIM.mk "p1" "sim1" "s1.fast" [] ⟨true, "i1"⟩ "a",
              SIM.mk "p2" "sim2" "s1.fast" [] ⟨true, "i2"⟩ "b"].map matchLine) :=
  (claim_C8 "dev" "boom" _).2.2.1 (by decide)

/-- Claim C9: when the terminal-size query fails, the session behaves
exactly as if the query had returned the default 80 columns by 24 rows
— the pseudo-terminal is requested with those defaults and the session
continues rather than aborting. -/
theorem claim_C9 (st : ConnectSteps) (e : String) (h : st.getSize = .error e) :
    Connect st = Connect {st with getSize := .ok (80, 24)}
    ∧ (connectAfterRaw st).2 = some (24, 80) := by
  obtain ⟨c, d, ns, mr, gs, rp, si, so, se, sh, w⟩ := st
  simp only at h
  subst h
  constructor
  · rfl
  · unfold connectAfterRaw
    rcases rp with e1 | u1
    · rfl
    rcases si with e2 | u2
    · rfl
    rcases so with e3 | u3
    · rfl
    rcases se with e4 | u4 <;> rfl

/-- Claim C9 witness: a run whose terminal-size query fails equals the
run with the default size, and requests the PTY with rows 24 and
columns 80. -/
theorem claim_C9_witness :
    Connect ⟨.ok (), .ok (), .ok (), .ok (), .error "no tty", .ok (),
      .ok (), .ok (), .ok (), .ok (), .ok ()⟩
      = Connect ⟨.ok (), .ok (), .ok (), .ok (), .ok (80, 24), .ok (),
        .ok (), .ok (), .ok (), .ok (), .ok ()⟩
    ∧ (connectAfterRaw ⟨.ok (), .ok (), .ok (), .ok (), .error "no tty", .ok (),
        .ok (), .ok (), .ok (), .ok (), .ok ()⟩).2 = some (24, 80) :=
  claim_C9 _ "no tty" rfl

/-- Claim C10: on a SIM whose active profile ID is not a key of its
profiles map, or whose active profile names a primary IMSI that is not
a key of that profile's subscribers map, `getActiveSubscription` is
total and returns the empty string, and the derived renderings are
total, splicing the empty subscription into their formats. -/
theorem claim_C10 (s : SIM)
    (h : s.profiles.lookup s.activeProfileID = none
      ∨ ∃ p, s.profiles.lookup s.activeProfileID = some p
          ∧ p.subscribers.lookup p.primaryImsi = none) :
    s.getActiveSubscription = ""
    ∧ s.render = s.displayName ++ " (" ++ s.simID ++ " /  / " ++ s.speedClass ++ ")"
    ∧ s.description = " (" ++ s.speedClass ++ ")"
    ∧ s.filterValue = s.simID ++ s.tagsName ++ s.speedClass := by
  have hsub : s.getActiveSubscription = "" := by
    rcases h with h | ⟨p, hp, hq⟩
    · simp [SIM.getActiveSubscription, mapRead, h, Profile.zero, SubscriberEntry.zero]
    · simp [SIM.getActiveSubscription, mapRead, hp, hq, SubscriberEntry.zero]
  refine ⟨hsub, ?_, ?_, ?_⟩
  · unfold SIM.render
    rw [hsub]
    simp [String.append_assoc]
  · unfold SIM.description
    rw [hsub]
    simp [String.append_assoc]
  · unfold SIM.filterValue
    rw [hsub]
    simp [String.append_assoc]

/-- Claim C10 witness: a SIM with an empty profiles map. -/
theorem claim_C10_witness :
    (SIM.mk "p1" "sim1" "s1.fast" [] ⟨true, "i1"⟩ "dev").getActiveSubscription = ""
    ∧ (SIM.mk "p1" "sim1" "s1.fast" [] ⟨true, "i1"⟩ "dev").render
        = (SIM.mk "p1" "sim1" "s1.fast" [] ⟨true, "i1"⟩ "dev").displayName ++ " ("
          ++ (SIM.mk "p1" "sim1" "s1.fast" [] ⟨true, "i1"⟩ "dev").simID ++ " /  / "
          ++ (SIM.mk "p1" "sim1" "s1.fast" [] ⟨true, "i1"⟩ "dev").speedClass ++ ")"
    ∧ (SIM.mk "p1" "sim1" "s1.fast" [] ⟨true, "i1"⟩ "dev").description
        = " (" ++ (SIM.mk "p1" "sim1" "s1.fast" [] ⟨true, "i1"⟩ "dev").speedClass ++ ")"
    ∧ (SIM.mk "p1" "sim1" "s1.fast" [] ⟨true, "i1"⟩ "dev").filterValue
        = (SIM.mk "p1" "sim1" "s1.fast" [] ⟨true, "i1"⟩ "dev").simID
          ++ (SIM.mk "p1" "sim1" "s1.fast" [] ⟨true, "i1"⟩ "dev").tagsName
          ++ (SIM.mk "p1" "sim1" "s1.fast" [] ⟨true, "i1"⟩ "dev").speedClass :=
  claim_C10 _ (Or.inl rfl)

end Nssh
